import Mathlib

/-!
Verification development for the `ezmsg-harvesters` camera bridge.

The Python sources (`_spec.py`, `__init__.py`, `_gui.py`) are shallowly
embedded below:

* GenICam enumerations (`EInterfaceType`, `EAccessMode`, `EVisibility`) are
  inductives; where the Python code stores an enum object in a dynamically
  typed dataclass field, the stored value is modelled by its integer code
  (GenICam enums are integer enums), via `toCode`.
* A live feature object (`feature` together with its `feature.node` handle,
  flattened) is the inductive `Feature`; the vendor-side acceptance of a
  write to `feature.value` is the `accepts` field.  Feature collections and
  spec-children collections are the mutual list types `FeatureList` and
  `SpecList`, so that every traversal is structurally recursive and
  computes definitionally.
* `uuid4()` is modelled as a strictly increasing counter threaded through
  the computation: every generated identifier is fresh.  All builds in this
  file start from states in which the counter exceeds every key of the
  accumulating mapping, so the `while spec.uuid in mapping` loop of the
  source runs at most one regeneration, which is how `regen_uuid` renders it.
* Python dicts are insertion-ordered association lists (`dictInsert`
  overwrites in place, otherwise appends).
* CPython local-variable semantics are kept: in the Not-Available integer
  branch of `build_feature_spec` the local `spec` still holds the previous
  iteration's (already appended) object, or is unbound on the first
  iteration (`ErrKind.nameError`, Python's `UnboundLocalError`, a subclass
  of `NameError`).  Object aliasing between that local and the tail of the
  accumulating `feature_specs` list is tracked by `BuildSt.aliasCnt`: the
  trailing `aliasCnt` entries of the output are the very object currently
  held by `spec`, so a uuid mutation hits all of them.
* The module-level mutable default arguments (`mapping: dict = {}` in
  `build_feature_spec` and `mapping={}` in `build_widgets_from_spec`) are
  modelled as explicit global records threaded through the no-argument call
  wrappers (`build_feature_spec_noarg`, `on_feature_specs`).
-/

inductive EInterfaceType where
  | intfICategory
  | intfIInteger
  | intfICommand
  | intfIBoolean
  | intfIEnumeration
  | intfIString
  | intfIFloat
  | intfIOther
deriving DecidableEq, Repr

inductive EAccessMode where
  | NI
  | NA
  | WO
  | RO
  | RW
deriving DecidableEq, Repr

/-- Integer code of a GenICam access mode (GenApi: NI=0, NA=1, WO=2, RO=3, RW=4). -/
def EAccessMode.toCode : EAccessMode → Nat
  | .NI => 0
  | .NA => 1
  | .WO => 2
  | .RO => 3
  | .RW => 4

inductive EVisibility where
  | Beginner
  | Expert
  | Guru
  | Invisible
deriving DecidableEq, Repr

/-- Integer code of a GenICam visibility level (Beginner=0, Expert=1, Guru=2, Invisible=3). -/
def EVisibility.toCode : EVisibility → Nat
  | .Beginner => 0
  | .Expert => 1
  | .Guru => 2
  | .Invisible => 3

/-- A dynamically typed Python value, as carried by `feature.value` and by
`FeatureValue.value`. -/
inductive PyVal where
  | i (n : Int)
  | f (q : Rat)
  | b (v : Bool)
  | s (v : String)
deriving DecidableEq, Repr

mutual
/-- A live GenICam feature object.  The indirection `feature.node` of the
source is flattened: `display_name`, `visibility`, `principal_interface_type`
and `get_access_mode` live on the node handle in the source.  `accepts`
models whether the vendor device accepts a write of the given value to
`feature.value` (the assignment `feature.value = v` raises when
`accepts v = false`). -/
inductive Feature where
  | mk (display_name : String) (visibility : EVisibility)
       (principal_interface_type : EInterfaceType) (access_mode : EAccessMode)
       (value : PyVal) (min max inc : Int) (entries : List String)
       (features : FeatureList) (accepts : PyVal → Bool)

/-- A feature collection (`feature.features`, `Root.features`). -/
inductive FeatureList where
  | nil
  | cons (head : Feature) (tail : FeatureList)
end

def Feature.display_name : Feature → String
  | .mk dn _ _ _ _ _ _ _ _ _ _ => dn

def Feature.visibility : Feature → EVisibility
  | .mk _ vis _ _ _ _ _ _ _ _ _ => vis

def Feature.principal_interface_type : Feature → EInterfaceType
  | .mk _ _ it _ _ _ _ _ _ _ _ => it

/-- Models `feature.node.get_access_mode()`. -/
def Feature.get_access_mode : Feature → EAccessMode
  | .mk _ _ _ am _ _ _ _ _ _ _ => am

def Feature.value : Feature → PyVal
  | .mk _ _ _ _ v _ _ _ _ _ _ => v

def Feature.accepts : Feature → PyVal → Bool
  | .mk _ _ _ _ _ _ _ _ _ _ acc => acc

/-- Models the in-place mutation `feature.value = v` (after a successful write,
the live node reports the written value). -/
def Feature.set_value : Feature → PyVal → Feature
  | .mk dn vis it am _ mn mx ic en fs acc, v => .mk dn vis it am v mn mx ic en fs acc

mutual
/-- The `FeatureSpec` dataclasses of `_spec.py`.  The `visibility` field is
stored as the integer code of whatever enum object the source assigns to it
(the dataclass field is not type-checked at runtime). -/
inductive FeatureSpec where
  | integerSpec (display_name : String) (visibility : Nat) (access_mode : EAccessMode)
      (value : PyVal) (min max inc : Option Int) (uuid : Nat)
  | commandSpec (display_name : String) (visibility : Nat) (uuid : Nat)
  | booleanSpec (display_name : String) (visibility : Nat) (access_mode : EAccessMode)
      (value : PyVal) (uuid : Nat)
  | enumSpec (display_name : String) (visibility : Nat) (access_mode : EAccessMode)
      (value : PyVal) (items : List String) (uuid : Nat)
  | stringSpec (display_name : String) (visibility : Nat) (access_mode : EAccessMode)
      (value : PyVal) (uuid : Nat)
  | floatSpec (display_name : String) (visibility : Nat) (access_mode : EAccessMode)
      (value : PyVal) (uuid : Nat)
  | categorySpec (display_name : String) (visibility : Nat)
      (children : SpecList) (uuid : Nat)

/-- A list of feature specs (the `feature_specs` accumulator and the
`children` of a category spec). -/
inductive SpecList where
  | nil
  | cons (head : FeatureSpec) (tail : SpecList)
end

def FeatureSpec.uuid : FeatureSpec → Nat
  | .integerSpec _ _ _ _ _ _ _ u => u
  | .commandSpec _ _ u => u
  | .booleanSpec _ _ _ _ u => u
  | .enumSpec _ _ _ _ _ u => u
  | .stringSpec _ _ _ _ u => u
  | .floatSpec _ _ _ _ u => u
  | .categorySpec _ _ _ u => u

/-- Models the in-place mutation `spec.uuid = uuid4()`. -/
def FeatureSpec.set_uuid : FeatureSpec → Nat → FeatureSpec
  | .integerSpec dn vis am v mn mx ic _, u => .integerSpec dn vis am v mn mx ic u
  | .commandSpec dn vis _, u => .commandSpec dn vis u
  | .booleanSpec dn vis am v _, u => .booleanSpec dn vis am v u
  | .enumSpec dn vis am v its _, u => .enumSpec dn vis am v its u
  | .stringSpec dn vis am v _, u => .stringSpec dn vis am v u
  | .floatSpec dn vis am v _, u => .floatSpec dn vis am v u
  | .categorySpec dn vis ch _, u => .categorySpec dn vis ch u

def SpecList.append : SpecList → SpecList → SpecList
  | .nil, ys => ys
  | .cons x xs, ys => .cons x (SpecList.append xs ys)

instance : Append SpecList := ⟨SpecList.append⟩

/-- The list consisting of `n` occurrences of one spec object. -/
def SpecList.replicate : Nat → FeatureSpec → SpecList
  | 0, _ => .nil
  | n + 1, s => .cons s (SpecList.replicate n s)

/-- The uuids of the specs of a list, in order. -/
def SpecList.uuids : SpecList → List Nat
  | .nil => []
  | .cons s t => s.uuid :: t.uuids

def SpecList.length : SpecList → Nat
  | .nil => 0
  | .cons _ t => t.length + 1

/-- Exceptions raised by the embedded code. -/
inductive ErrKind where
  | nameError
  | valueError
  | decodeError
deriving DecidableEq, Repr

/-- Python dict membership (`k in d`). -/
def dictContains {α : Type} (m : List (Nat × α)) (k : Nat) : Bool :=
  m.any (fun p => p.1 == k)

/-- Python dict write (`d[k] = v`): overwrite in place, otherwise append
(dicts are insertion-ordered). -/
def dictInsert {α : Type} (m : List (Nat × α)) (k : Nat) (v : α) : List (Nat × α) :=
  if dictContains m k then m.map (fun p => if p.1 == k then (k, v) else p)
  else m ++ [(k, v)]

/-- Python dict read (`d.get(k)` / `d[k]` after a membership test). -/
def dictLookup {α : Type} (m : List (Nat × α)) (k : Nat) : Option α :=
  (m.find? (fun p => p.1 == k)).map (·.2)

def dictKeys {α : Type} (m : List (Nat × α)) : List Nat :=
  m.map (·.1)

/-- The `while spec.uuid in mapping: spec.uuid = uuid4()` loop.  `uuid4()` is
the counter `ctr`; every state reached in this file keeps `ctr` above every
key of the mapping, so the loop body runs at most once: one regeneration
returns a fresh identifier.  Returns the final uuid and the next counter. -/
def regen_uuid {α : Type} (mapping : List (Nat × α)) (u ctr : Nat) : Nat × Nat :=
  if dictContains mapping u then (ctr, ctr + 1) else (u, ctr)

/-- Traversal state of `build_feature_spec`: `committed` are output entries no
longer aliased by the local `spec`; the local `spec` (when bound) appears
`aliasCnt` times at the end of the output list, as the same object. -/
structure BuildSt where
  committed : SpecList
  specVar : Option FeatureSpec
  aliasCnt : Nat
  mapping : List (Nat × Feature)
  ctr : Nat

/-- The contents of the `feature_specs` list: committed entries followed by the
aliased occurrences of the object currently held by the `spec` local. -/
def BuildSt.specsOut (st : BuildSt) : SpecList :=
  st.committed ++ (match st.specVar with
    | some s => SpecList.replicate st.aliasCnt s
    | none => .nil)

/-- One normal iteration tail of `build_feature_spec`: a new spec object is
constructed (its uuid from `uuid4()`, i.e. the counter), the collision loop
runs, the spec is appended and `mapping[spec.uuid] = feature` executes.
Reassigning the `spec` local commits the previous object's occurrences. -/
def pushNew (st : BuildSt) (mk : Nat → FeatureSpec) (feature : Feature) : BuildSt :=
  let fresh := regen_uuid st.mapping st.ctr (st.ctr + 1)
  { committed := st.specsOut
    specVar := some (mk fresh.1)
    aliasCnt := 1
    mapping := dictInsert st.mapping fresh.1 feature
    ctr := fresh.2 }

/-- The Not-Available integer iteration tail: no new spec is constructed, so
the `spec` local still holds the previous iteration's object (unbound on the
first iteration: `NameError`).  The collision loop fires on that object's
uuid (it is in the mapping from its own iteration), mutates it in place —
which rewrites every aliased occurrence already in the output list — and the
object is appended once more; `mapping[spec.uuid] = feature` then stores the
Not-Available feature under the regenerated uuid. -/
def pushNA (st : BuildSt) (feature : Feature) : Except ErrKind BuildSt :=
  match st.specVar with
  | none => .error .nameError
  | some s =>
      let fresh := regen_uuid st.mapping s.uuid st.ctr
      .ok { committed := st.committed
            specVar := some (s.set_uuid fresh.1)
            aliasCnt := st.aliasCnt + 1
            mapping := dictInsert st.mapping fresh.1 feature
            ctr := fresh.2 }

mutual
/-- One iteration of the `for feature in features` loop of
`build_feature_spec`.  A category node recurses into its own children first,
sharing the accumulating mapping and the uuid source; note that the source
stores `feature.node.get_access_mode()` in the category spec's `visibility`
field.  An integer node dispatches on its access mode (Read-Write captures
min/max/inc, Read-Only only the value, Not-Available constructs nothing);
command/boolean/enumeration/string/float nodes build their specs; any other
interface type raises `ValueError`. -/
def buildStep (f : Feature) (st : BuildSt) : Except ErrKind BuildSt :=
  match f with
  | .mk dn vis it am v mn mx ic en children _ =>
    match it with
    | .intfICategory => do
        let stChild ← buildFold children ⟨.nil, none, 0, st.mapping, st.ctr⟩
        .ok (pushNew { st with mapping := stChild.mapping, ctr := stChild.ctr }
          (fun u => .categorySpec dn am.toCode stChild.specsOut u) f)
    | .intfIInteger =>
        match am with
        | .RW => .ok (pushNew st
            (fun u => .integerSpec dn vis.toCode .RW v (some mn) (some mx) (some ic) u) f)
        | .RO => .ok (pushNew st
            (fun u => .integerSpec dn vis.toCode .RO v none none none u) f)
        | .NA => pushNA st f
        | _ => .error .valueError
    | .intfICommand => .ok (pushNew st (fun u => .commandSpec dn vis.toCode u) f)
    | .intfIBoolean => .ok (pushNew st (fun u => .booleanSpec dn vis.toCode am v u) f)
    | .intfIEnumeration => .ok (pushNew st (fun u => .enumSpec dn vis.toCode am v en u) f)
    | .intfIString => .ok (pushNew st (fun u => .stringSpec dn vis.toCode am v u) f)
    | .intfIFloat => .ok (pushNew st (fun u => .floatSpec dn vis.toCode am v u) f)
    | .intfIOther => .error .valueError

/-- The `for feature in features` loop of `build_feature_spec`. -/
def buildFold (fs : FeatureList) (st : BuildSt) : Except ErrKind BuildSt :=
  match fs with
  | .nil => .ok st
  | .cons f rest => do
      let st' ← buildStep f st
      buildFold rest st'
end

/-- `build_feature_spec(features, mapping)` with the uuid source made
explicit: returns the spec list, the (shared, mutated-in-place) mapping and
the advanced uuid counter. -/
def build_feature_spec (features : FeatureList) (mapping : List (Nat × Feature))
    (ctr : Nat) : Except ErrKind (SpecList × List (Nat × Feature) × Nat) := do
  let st ← buildFold features ⟨.nil, none, 0, mapping, ctr⟩
  .ok (st.specsOut, st.mapping, st.ctr)

/-- The module-level state behind `def build_feature_spec(features, mapping: dict = {})`:
the default dict is evaluated once and shared by every call that passes no
mapping argument; the uuid source rides along. -/
structure BuildGlobals where
  default_mapping : List (Nat × Feature)
  ctr : Nat

/-- A call `build_feature_spec(features)` with no mapping argument: the shared
default dict is passed in, mutated in place, and returned; the globals after
the call hold that same dict. -/
def build_feature_spec_noarg (g : BuildGlobals) (features : FeatureList) :
    Except ErrKind (SpecList × List (Nat × Feature) × BuildGlobals) := do
  let r ← build_feature_spec features g.default_mapping g.ctr
  .ok (r.1, r.2.1, ⟨r.2.1, r.2.2⟩)

/-- Spec list of a build started from an empty mapping and a zero counter. -/
def build_specs (features : FeatureList) : Except ErrKind SpecList :=
  match build_feature_spec features [] 0 with
  | .ok r => .ok r.1
  | .error e => .error e

/-- Mapping keys of a build started from an empty mapping and a zero counter. -/
def build_keys (features : FeatureList) : List Nat :=
  match build_feature_spec features [] 0 with
  | .ok r => dictKeys r.2.1
  | .error _ => []

/-- Uuids of the specs of a build started from an empty mapping and a zero
counter. -/
def build_uuids (features : FeatureList) : List Nat :=
  match build_feature_spec features [] 0 with
  | .ok r => r.1.uuids
  | .error _ => []

/-- The `Source` enum of `_spec.py`. -/
inductive Source where
  | CAMERA
  | CONTROLLER
deriving DecidableEq, Repr

/-- The `FeatureValue` wire message of `_spec.py`. -/
structure FeatureValue where
  source : Source
  uuid : Nat
  value : PyVal
deriving DecidableEq, Repr

/-- The `Mode` enum of `__init__.py`. -/
inductive Mode where
  | STOPPED
  | PAUSED
  | STARTED
deriving DecidableEq, Repr

/-- A message yielded on `OUTPUT_CTRL`: either a `FeatureValue` or a full
`FeatureSpecs` tree. -/
inductive OutMsg where
  | fv (v : FeatureValue)
  | specs (s : SpecList)

/-- The `HarvesterCamState` slice the control path touches, together with the
camera's root feature collection (`ia.remote_device.node_map.Root.features`)
and the module-level default dict of `build_feature_spec` (see
`BuildGlobals`).  `iaPresent` models `ia is not None`. -/
structure CamState where
  mode : Mode
  mapping : List (Nat × Feature)
  rootFeatures : FeatureList
  default_mapping : List (Nat × Feature)
  ctr : Nat
  mode_change_ev : Bool
  iaPresent : Bool

/-- The `send_ctrl` publisher: when a device is bound, rebuild the spec tree
with a no-argument `build_feature_spec` call, store the returned mapping and
yield the specs. -/
def send_ctrl (st : CamState) : Except ErrKind (CamState × List OutMsg) :=
  if st.iaPresent then do
    let r ← build_feature_spec_noarg ⟨st.default_mapping, st.ctr⟩ st.rootFeatures
    .ok ({ st with mapping := r.2.1,
                   default_mapping := r.2.2.default_mapping,
                   ctr := r.2.2.ctr },
         [.specs r.1])
  else .ok (st, [])

/-- Interface types dispatched to the value-write branch of `on_ctrl`
(`isinstance` against IInteger / IFloat / IBoolean / IEnumeration / IString). -/
def is_value_interface : EInterfaceType → Bool
  | .intfIInteger => true
  | .intfIFloat => true
  | .intfIBoolean => true
  | .intfIEnumeration => true
  | .intfIString => true
  | _ => false

/-- The value-write branch of `on_ctrl` (`feature.value = message.value` under
`try`): a successful write updates the live node in place, so the mapping's
entry for the identifier now reports the written value; a rejected write is
caught, logged, and answered by a single corrective
`FeatureValue(Source.CAMERA, message.uuid, feature.value)`. -/
def write_value_branch (st : CamState) (message : FeatureValue) (feature : Feature) :
    CamState × List OutMsg :=
  if feature.accepts message.value then
    ({ st with mapping := dictInsert st.mapping message.uuid (feature.set_value message.value) },
     [])
  else (st, [.fv ⟨Source.CAMERA, message.uuid, feature.value⟩])

/-- The command branch of `on_ctrl` for a mode-transition command: execute is
a device-side effect; the normalized display names `AcquisitionStart` and
`AcquisitionStop` in the opposite mode transition the mode, rebuild the spec
tree via a no-argument `build_feature_spec` call, set the mode-change event
and yield the rebuilt specs. -/
def command_branch (st : CamState) (feature : Feature) :
    Except ErrKind (CamState × List OutMsg) :=
  let dn := (feature.display_name).replace " " ""
  if dn = "AcquisitionStart" ∧ st.mode ≠ Mode.STARTED then do
    let r ← build_feature_spec_noarg ⟨st.default_mapping, st.ctr⟩ st.rootFeatures
    .ok ({ st with mode := Mode.STARTED,
                   mapping := r.2.1,
                   default_mapping := r.2.2.default_mapping,
                   ctr := r.2.2.ctr,
                   mode_change_ev := true },
         [.specs r.1])
  else if dn = "AcquisitionStop" ∧ st.mode ≠ Mode.STOPPED then do
    let r ← build_feature_spec_noarg ⟨st.default_mapping, st.ctr⟩ st.rootFeatures
    .ok ({ st with mode := Mode.STOPPED,
                   mapping := r.2.1,
                   default_mapping := r.2.2.default_mapping,
                   ctr := r.2.2.ctr,
                   mode_change_ev := true },
         [.specs r.1])
  else .ok (st, [])

/-- The `on_ctrl` handler of `HarvesterCam`: non-Controller messages return
unchanged; an unknown identifier is logged and returns unchanged; the live
node found in the mapping is dispatched by `isinstance` — Category is a
no-op, Command goes to `command_branch`, the five value-bearing kinds go to
`write_value_branch`, and any other interface type raises `ValueError`. -/
def on_ctrl (st : CamState) (message : FeatureValue) :
    Except ErrKind (CamState × List OutMsg) :=
  if message.source ≠ Source.CONTROLLER then .ok (st, [])
  else
    match dictLookup st.mapping message.uuid with
    | none => .ok (st, [])
    | some feature =>
      match feature.principal_interface_type with
      | .intfICategory => .ok (st, [])
      | .intfICommand => command_branch st feature
      | .intfIInteger => .ok (write_value_branch st message feature)
      | .intfIFloat => .ok (write_value_branch st message feature)
      | .intfIBoolean => .ok (write_value_branch st message feature)
      | .intfIEnumeration => .ok (write_value_branch st message feature)
      | .intfIString => .ok (write_value_branch st message feature)
      | .intfIOther => .error .valueError

/-- A rendered control of `_gui.py`, reduced to the state the control path
reads and writes: its displayed value.  Category containers and push buttons
hold a placeholder value (`magicgui` gives buttons the value `False`). -/
structure Widget where
  value : PyVal
deriving DecidableEq, Repr

/-- The widget constructed for one non-category spec (SpinBox, PushButton,
ComboBox, LineEdit): each value-bearing control starts at the spec's value. -/
def mk_widget : FeatureSpec → Widget
  | .integerSpec _ _ _ v _ _ _ _ => ⟨v⟩
  | .commandSpec _ _ _ => ⟨.b false⟩
  | .booleanSpec _ _ _ v _ => ⟨v⟩
  | .enumSpec _ _ _ v _ _ => ⟨v⟩
  | .stringSpec _ _ _ v _ => ⟨v⟩
  | .floatSpec _ _ _ v _ => ⟨v⟩
  | .categorySpec _ _ _ _ => ⟨.b false⟩

mutual
/-- One iteration of the `for spec in specs` loop of
`build_widgets_from_spec`: a category recurses into its children with the
same shared mapping first; the constructed widget is then stored under
`mapping[spec.uuid] = widget`, categories included.  (The visibility combo
box and the layout containers belong to the GUI toolkit, which is out of
scope; only the identifier-to-widget mapping and the rendered controls are
modelled.) -/
def buildWidgetStep (spec : FeatureSpec) (mapping : List (Nat × Widget)) :
    Widget × List (Nat × Widget) :=
  match spec with
  | .categorySpec _ _ children _ =>
      let r := build_widgets_from_spec children mapping
      (⟨.b false⟩, r.2)
  | s => (mk_widget s, mapping)

/-- The `build_widgets_from_spec` traversal of `_gui.py`, restricted to the
rendered widget list and the accumulating identifier-to-widget mapping. -/
def build_widgets_from_spec (specs : SpecList) (mapping : List (Nat × Widget)) :
    List Widget × List (Nat × Widget) :=
  match specs with
  | .nil => ([], mapping)
  | .cons spec rest =>
      let step := buildWidgetStep spec mapping
      let mapping' := dictInsert step.2 spec.uuid step.1
      let r := build_widgets_from_spec rest mapping'
      (step.1 :: r.1, r.2)
end

/-- Setting a control's displayed value.  An unblocked user-visible change
fires the control's `changed` signal, whose `on_value_changed` listener emits
`FeatureValue(Source.CONTROLLER, uuid, value)`; inside
`widget.changed.blocked()` the signal is suppressed and nothing is emitted. -/
def widget_set_value (_w : Widget) (uuid : Nat) (v : PyVal) (blocked : Bool) :
    Widget × List FeatureValue :=
  ((⟨v⟩ : Widget), if blocked then [] else [⟨Source.CONTROLLER, uuid, v⟩])

/-- The stored identifier-to-control mapping of `GenicamController`. -/
structure ControllerState where
  mapping : List (Nat × Widget)
deriving DecidableEq, Repr

/-- The module-level state behind `def build_widgets_from_spec(specs, cb_visibility=None, mapping={})`:
the default dict shared by every call that passes no mapping argument. -/
structure GuiGlobals where
  default_mapping : List (Nat × Widget)
deriving DecidableEq, Repr

/-- `GenicamController.on_feature_specs`: rebuild the widget tree with a
no-mapping-argument `build_widgets_from_spec` call and store the returned
mapping (which is the shared default dict, mutated in place). -/
def on_feature_specs (_st : ControllerState) (g : GuiGlobals) (specs : SpecList) :
    ControllerState × GuiGlobals :=
  let r := build_widgets_from_spec specs g.default_mapping
  ((⟨r.2⟩ : ControllerState), ⟨r.2⟩)

/-- `GenicamController.on_feature_value`: messages whose origin is not Camera
are ignored; an unknown identifier is a no-op; otherwise the control's
displayed value is set inside `widget.changed.blocked()`. -/
def on_feature_value (st : ControllerState) (feature : FeatureValue) :
    ControllerState × List FeatureValue :=
  if feature.source ≠ Source.CAMERA then (st, [])
  else
    match dictLookup st.mapping feature.uuid with
    | none => (st, [])
    | some widget =>
        let r := widget_set_value widget feature.uuid feature.value true
        (⟨dictInsert st.mapping feature.uuid r.1⟩, r.2)

/-- Format-family membership as given by the `harvesters.util.pfnc` lookup
lists (consumed as an external table, not redesigned). -/
inductive FormatFamily where
  | mono
  | bayer
  | rgb
  | rgba
  | bgr
  | bgra
  | other
deriving DecidableEq, Repr

/-- The pixel format of a buffer component: its family per the pfnc lists,
the `get_bits_per_pixel` lookup result, and whether `is_custom` holds for
its `data_format_value`. -/
structure DataFormat where
  family : FormatFamily
  bits_per_pixel : Option Nat
  is_custom : Bool
deriving DecidableEq, Repr

/-- The first image component of a fetched buffer: dimensions, format, and
the flat sample data (index → sample value). -/
structure Component where
  width : Nat
  height : Nat
  num_components_per_pixel : Nat
  data_format : DataFormat
  data : Nat → Nat

/-- The decoded frame handed to the output stream: a 2D (height × width)
array for mono/Bayer formats, a 3D (height × width × channels) array for the
color families, both represented by their index functions. -/
inductive DecodedFrame where
  | d2 (h w : Nat) (px : Nat → Nat → Nat)
  | d3 (h w c : Nat) (px : Nat → Nat → Nat → Nat)

def DecodedFrame.pix : DecodedFrame → Nat → Nat → Nat → Nat
  | .d2 _ _ p, i, j, _ => p i j
  | .d3 _ _ _ p, i, j, k => p i j k

/-- The `exponent` computed in `on_image`: custom formats skip the bit-depth
lookup (`data_format = None`, so `get_bits_per_pixel` yields `None` and the
exponent stays 0); otherwise `bpp - 8` when the lookup succeeds. -/
def decode_exponent (df : DataFormat) : Int :=
  if df.is_custom then 0
  else
    match df.bits_per_pixel with
    | some bpp => (bpp : Int) - 8
    | none => 0

/-- The 8-bit conversion of `on_image`: `content / (2 ** exponent)` (true
division, exact for the sample widths in play) followed by `astype(np.uint8)`
(truncation, wrapping modulo 256).  Identity when the exponent is not
positive — and, in the source, only ever applied on the color-format branch. -/
def to8bit (df : DataFormat) (v : Nat) : Nat :=
  if decode_exponent df > 0 then (v / 2 ^ (decode_exponent df).toNat) % 256 else v

/-- The decode portion of the `on_image` acquisition loop, from a fetched
buffer's first component to the array placed on the output stream.
Mono/Bayer formats are reshaped to 2D verbatim; the color families are
reshaped to 3D with BGR's channel axis reversed, and only they pass through
the 8-bit conversion; anything else (custom formats included, since `None`
is in none of the pfnc lists) raises. -/
def decode_component (c : Component) : Except ErrKind DecodedFrame :=
  let fam : Option FormatFamily :=
    if c.data_format.is_custom then none else some c.data_format.family
  if fam = some .mono ∨ fam = some .bayer then
    .ok (.d2 c.height c.width (fun i j => c.data (i * c.width + j)))
  else if fam = some .rgb ∨ fam = some .rgba ∨ fam = some .bgr ∨ fam = some .bgra then
    let n := c.num_components_per_pixel
    let px : Nat → Nat → Nat → Nat :=
      if fam = some .bgr then fun i j ch => c.data ((i * c.width + j) * n + (n - 1 - ch))
      else fun i j ch => c.data ((i * c.width + j) * n + ch)
    .ok (.d3 c.height c.width n (fun i j ch => to8bit c.data_format (px i j ch)))
  else .error .decodeError

/-- Pixel access on the decode result, for concrete evaluation. -/
def decode_pix (c : Component) (i j ch : Nat) : Option Nat :=
  match decode_component c with
  | .ok fr => some (fr.pix i j ch)
  | .error _ => none

/-- A live node that accepts every write (fixture for concrete evaluations). -/
def acceptAll : PyVal → Bool := fun _ => true

/-- Fixture: a category node whose visibility (Beginner) and access mode (RW)
have different integer codes. -/
def catBeginnerRW : Feature :=
  .mk "Cat" .Beginner .intfICategory .RW (.i 0) 0 0 0 [] .nil acceptAll

/-- Fixture: a command node. -/
def cmdNodeA : Feature :=
  .mk "A" .Beginner .intfICommand .RW (.i 0) 0 0 0 [] .nil acceptAll

/-- Fixture: an integer node whose access mode is Not-Available (the source
comments that only a Timestamp-like node hits this case). -/
def naTimestamp : Feature :=
  .mk "Timestamp" .Beginner .intfIInteger .NA (.i 7) 0 0 0 [] .nil acceptAll

/-- Fixture: a boolean node. -/
def boolNodeB : Feature :=
  .mk "B" .Expert .intfIBoolean .RW (.b true) 0 0 0 [] .nil acceptAll

/-- Fixture: a command node followed by a Not-Available integer node. -/
def cmdThenNA : FeatureList := .cons cmdNodeA (.cons naTimestamp .nil)

/-- Fixture: a boolean node followed by a Not-Available integer node. -/
def boolThenNA : FeatureList := .cons boolNodeB (.cons naTimestamp .nil)

/-- C1: the claim says every spec carries the node's visibility in its
visibility field; the code instead stores `feature.node.get_access_mode()`
there for Category nodes.  Evaluating the build on a category node with
visibility Beginner (code 0) and access mode RW (code 4) yields a spec whose
visibility field holds the access-mode code. -/
theorem c1_category_spec_visibility_is_access_mode_code :
    build_specs (.cons catBeginnerRW .nil) =
      .ok (.cons (.categorySpec "Cat" EAccessMode.RW.toCode .nil 0) .nil)
    ∧ EAccessMode.RW.toCode ≠ EVisibility.Beginner.toCode :=
  ⟨rfl, by decide⟩

/-- C3: the claim says a Not-Available integer node contributes no spec and
no mapping entry.  In the code the Not-Available branch only skips the
construction; the trailing append and mapping insert still run on the
previous iteration's spec object, so `[command, NA-integer]` yields a
two-element spec list (the command spec object appended twice, its uuid
regenerated from 0 to 1) and a two-entry mapping — not the one-spec,
one-entry output the claim requires. -/
theorem c3_na_integer_contributes_spec_and_mapping_entry :
    build_specs cmdThenNA =
      .ok (.cons (.commandSpec "A" 0 1) (.cons (.commandSpec "A" 0 1) .nil))
    ∧ build_keys cmdThenNA = [0, 1]
    ∧ ([0, 1] : List Nat) ≠ [0] :=
  ⟨rfl, rfl, by decide⟩

/-- C8: the claim says each returned spec tree contains no duplicate
identifier.  On `[boolean, NA-integer]` the build returns the boolean spec
object twice with the single regenerated uuid 1, so one tree carries a
duplicate identifier. -/
theorem c8_duplicate_identifier_within_single_tree :
    build_uuids boolThenNA = [1, 1] ∧ ¬ ([1, 1] : List Nat).Nodup :=
  ⟨rfl, by decide⟩

/-- C10: a feature collection whose first element is a Not-Available integer
feature makes `build_feature_spec` raise `NameError` (CPython
`UnboundLocalError`): the Not-Available branch constructs nothing, and the
trailing `while spec.uuid in mapping` references the never-assigned local
`spec`. -/
theorem build_feature_spec_na_first_raises_name_error
    (f : Feature) (fs : FeatureList) (ctr : Nat)
    (hi : f.principal_interface_type = .intfIInteger)
    (ha : f.get_access_mode = .NA) :
    build_feature_spec (.cons f fs) [] ctr = .error .nameError := by
  obtain ⟨dn, vis, it, am, v, mn, mx, ic, en, ch, acc⟩ := f
  simp only [Feature.principal_interface_type] at hi
  simp only [Feature.get_access_mode] at ha
  subst hi; subst ha
  rfl

/-- Witness for C10 at a concrete input: a singleton collection holding the
Not-Available Timestamp node. -/
theorem build_feature_spec_na_first_raises_name_error_witness :
    build_feature_spec (.cons naTimestamp .nil) [] 0 = .error .nameError :=
  build_feature_spec_na_first_raises_name_error naTimestamp .nil 0 rfl rfl

/-- Fixture: a camera state ready for `send_ctrl` with one command feature. -/
def camStSend : CamState :=
  ⟨.STOPPED, [], .cons cmdNodeA .nil, [], 0, false, true⟩

/-- Mapping keys stored after two consecutive `send_ctrl` builds. -/
def send_ctrl_twice_keys (st : CamState) : List Nat :=
  match send_ctrl st with
  | .ok r =>
      match send_ctrl r.1 with
      | .ok r2 => dictKeys r2.1.mapping
      | .error _ => []
  | .error _ => []

/-- Uuids of the spec tree emitted by the second of two consecutive
`send_ctrl` builds. -/
def send_ctrl_second_uuids (st : CamState) : List Nat :=
  match send_ctrl st with
  | .ok r =>
      match send_ctrl r.1 with
      | .ok r2 =>
          match r2.2 with
          | [.specs s] => s.uuids
          | _ => []
      | .error _ => []
  | .error _ => []

/-- C4: the claim says the mapping returned by a no-argument
`build_feature_spec` call contains exactly the identifiers produced in that
build.  Because the default `mapping: dict = {}` is evaluated once and shared,
the second `send_ctrl` build returns a mapping whose keys are `[0, 1]` while
the second build produced only the spec uuid 1 — the first build's entry
remains. -/
theorem c4_default_mapping_accumulates_across_builds :
    send_ctrl_twice_keys camStSend = [0, 1]
    ∧ send_ctrl_second_uuids camStSend = [1]
    ∧ ([0, 1] : List Nat) ≠ [1] :=
  ⟨rfl, rfl, by decide⟩

/-- Fixture: the single spec of a first controller generation. -/
def specGen1 : FeatureSpec := .commandSpec "A" 0 1

/-- Fixture: the single spec of a second controller generation. -/
def specGen2 : FeatureSpec := .commandSpec "B" 0 2

/-- Mapping keys stored by the controller after receiving two consecutive
spec trees (each a single spec), starting from fresh controller state and
fresh module globals. -/
def two_generation_keys : List Nat :=
  let r1 := on_feature_specs ⟨[]⟩ ⟨[]⟩ (.cons specGen1 .nil)
  let r2 := on_feature_specs r1.1 r1.2 (.cons specGen2 .nil)
  dictKeys r2.1.mapping

/-- C6: the claim says `on_feature_specs` replaces the identifier-to-control
mapping wholesale, leaving no identifier of a previous generation.  Because
`build_widgets_from_spec` accumulates into its shared default `mapping={}`,
after the second tree the stored mapping still contains the first
generation's identifier 1 alongside the new identifier 2. -/
theorem c6_controller_mapping_retains_stale_identifier :
    two_generation_keys = [1, 2] ∧ ([1, 2] : List Nat) ≠ [2] :=
  ⟨rfl, by decide⟩

/-- C7: `on_feature_value` ignores messages whose origin is not Camera,
treats an unknown identifier as a no-op, and — because the update runs inside
`widget.changed.blocked()` — never emits any outbound message at all, in
particular no Controller-origin echo for the updated identifier. -/
theorem on_feature_value_no_controller_echo
    (st : ControllerState) (fv : FeatureValue) :
    (fv.source ≠ Source.CAMERA → on_feature_value st fv = (st, []))
    ∧ (dictLookup st.mapping fv.uuid = none → on_feature_value st fv = (st, []))
    ∧ (on_feature_value st fv).2 = [] := by
  refine ⟨fun h => by simp [on_feature_value, h], fun h => ?_, ?_⟩
  · by_cases hs : fv.source = Source.CAMERA
    · simp [on_feature_value, hs, h]
    · simp [on_feature_value, hs]
  · by_cases hs : fv.source = Source.CAMERA
    · cases hlk : dictLookup st.mapping fv.uuid <;>
        simp [on_feature_value, hs, hlk, widget_set_value]
    · simp [on_feature_value, hs]

/-- Fixture: a controller holding one control under identifier 3. -/
def ctrlStW : ControllerState := ⟨[(3, ⟨.i 1⟩)]⟩

/-- Fixture: a Controller-origin message (to be ignored). -/
def fvCtrlOrigin : FeatureValue := ⟨.CONTROLLER, 3, .i 9⟩

/-- Fixture: a Camera-origin message with an unknown identifier. -/
def fvUnknown : FeatureValue := ⟨.CAMERA, 4, .i 9⟩

/-- Fixture: a Camera-origin message for the known identifier 3. -/
def fvKnown : FeatureValue := ⟨.CAMERA, 3, .i 9⟩

/-- Witness for C7 at concrete inputs: a non-Camera message and an unknown
identifier are no-ops, and a delivered Camera-origin update emits nothing. -/
theorem on_feature_value_no_controller_echo_witness :
    on_feature_value ctrlStW fvCtrlOrigin = (ctrlStW, [])
    ∧ on_feature_value ctrlStW fvUnknown = (ctrlStW, [])
    ∧ (on_feature_value ctrlStW fvKnown).2 = [] :=
  ⟨(on_feature_value_no_controller_echo ctrlStW fvCtrlOrigin).1 (by decide),
   (on_feature_value_no_controller_echo ctrlStW fvUnknown).2.1 rfl,
   (on_feature_value_no_controller_echo ctrlStW fvKnown).2.2⟩

/-- C2: for a Controller-origin message whose identifier resolves to a
value-bearing node, `on_ctrl` either performs the write — the mapping's node
then reports the written value and nothing is emitted — or, exactly when the
live node rejects the write, emits the single corrective Camera-origin
`FeatureValue` carrying the node's unchanged current value: never both,
never neither. -/
theorem on_ctrl_value_write_or_single_corrective
    (st : CamState) (msg : FeatureValue) (f : Feature)
    (hs : msg.source = Source.CONTROLLER)
    (hl : dictLookup st.mapping msg.uuid = some f)
    (hk : is_value_interface f.principal_interface_type = true) :
    (f.accepts msg.value = true →
      on_ctrl st msg =
        .ok ({ st with mapping := dictInsert st.mapping msg.uuid (f.set_value msg.value) }, []))
    ∧ (f.accepts msg.value = false →
      on_ctrl st msg = .ok (st, [.fv ⟨Source.CAMERA, msg.uuid, f.value⟩])) := by
  have hdc : on_ctrl st msg = .ok (write_value_branch st msg f) := by
    simp only [on_ctrl, hs, hl]
    cases hpt : f.principal_interface_type <;> simp_all [is_value_interface]
  refine ⟨fun hacc => ?_, fun hacc => ?_⟩ <;>
    rw [hdc] <;> simp [write_value_branch, hacc]

/-- Fixture: an integer node accepting writes in the range 0..10, currently
holding the value 3. -/
def intExposure : Feature :=
  .mk "Exposure" .Beginner .intfIInteger .RW (.i 3) 0 10 1 [] .nil
    (fun v => match v with
      | .i n => decide (0 ≤ n ∧ n ≤ 10)
      | _ => false)

/-- Fixture: a camera state whose mapping resolves identifier 5 to the
integer node. -/
def camStWrite : CamState :=
  ⟨.STOPPED, [(5, intExposure)], .nil, [], 0, false, true⟩

/-- Fixture: an accepted write request. -/
def msgAccepted : FeatureValue := ⟨.CONTROLLER, 5, .i 7⟩

/-- Fixture: an out-of-range write request. -/
def msgRejected : FeatureValue := ⟨.CONTROLLER, 5, .i 99⟩

/-- Witness for C2 at concrete inputs: the in-range write lands on the node
with nothing emitted, the out-of-range write leaves the state and emits the
single corrective message with the node's current value 3. -/
theorem on_ctrl_value_write_or_single_corrective_witness :
    on_ctrl camStWrite msgAccepted =
      .ok ({ camStWrite with
              mapping := dictInsert camStWrite.mapping 5 (intExposure.set_value (.i 7)) }, [])
    ∧ on_ctrl camStWrite msgRejected =
      .ok (camStWrite, [.fv ⟨Source.CAMERA, 5, intExposure.value⟩]) :=
  ⟨(on_ctrl_value_write_or_single_corrective camStWrite msgAccepted intExposure
      rfl rfl rfl).1 rfl,
   (on_ctrl_value_write_or_single_corrective camStWrite msgRejected intExposure
      rfl rfl rfl).2 rfl⟩

/-- C5 (amended): a non-custom monochrome buffer is reshaped to a 2D
(height × width) array verbatim — the 8-bit downscale block sits inside the
color-format branch of `on_image` and is never applied to mono/Bayer data,
whatever the format's bit depth. -/
theorem decode_mono_frame_is_raw_reshape (c : Component)
    (hf : c.data_format.family = .mono)
    (hc : c.data_format.is_custom = false) :
    decode_component c = .ok (.d2 c.height c.width (fun i j => c.data (i * c.width + j))) := by
  simp [decode_component, hf, hc]

/-- Fixture: a 1×1 Mono16 component (`get_bits_per_pixel` yields 16) whose
single raw sample is 256. -/
def mono16 : Component := ⟨1, 1, 1, ⟨.mono, some 16, false⟩, fun _ => 256⟩

/-- Counterexample to C5 as stated: the claim predicts the decoded pixel of
a 16-bit monochrome buffer equals `floor(raw / 256)` — here
`floor(256 / 256) = 1` — but the emitted frame carries the raw value 256. -/
theorem decode_mono16_not_downscaled_cex :
    decode_pix mono16 0 0 0 = some 256 ∧ (256 : Nat) ≠ 256 / 2 ^ (16 - 8) :=
  ⟨rfl, by decide⟩

/-- Witness for the amended C5 at the concrete Mono16 component: the decoded
pixel is the raw 16-bit sample. -/
theorem decode_mono_frame_is_raw_reshape_witness :
    decode_pix mono16 0 0 0 = some 256 := by
  have h := decode_mono_frame_is_raw_reshape mono16 rfl rfl
  unfold decode_pix
  rw [h]
  rfl

/-- C9: a non-custom BGR buffer (3 components per pixel) is reshaped to a 3D
(height × width × channels) array with the channel axis reversed, so the
output is RGB-ordered: position `ch` reads raw channel `2 - ch` (R and B
exchanged, G still at index 1); and whenever the format's bit depth does not
exceed 8 the values are passed through unchanged. -/
theorem decode_bgr_channel_axis_reversed (c : Component)
    (hf : c.data_format.family = .bgr)
    (hc : c.data_format.is_custom = false)
    (hn : c.num_components_per_pixel = 3) :
    decode_component c = .ok (.d3 c.height c.width 3
      (fun i j ch => to8bit c.data_format (c.data ((i * c.width + j) * 3 + (2 - ch)))))
    ∧ (decode_exponent c.data_format ≤ 0 →
      decode_component c = .ok (.d3 c.height c.width 3
        (fun i j ch => c.data ((i * c.width + j) * 3 + (2 - ch))))) := by
  have h1 : decode_component c = .ok (.d3 c.height c.width 3
      (fun i j ch => to8bit c.data_format (c.data ((i * c.width + j) * 3 + (2 - ch))))) := by
    simp [decode_component, hf, hc, hn]
  refine ⟨h1, fun hexp => ?_⟩
  rw [h1]
  have hfn : (fun i j ch => to8bit c.data_format (c.data ((i * c.width + j) * 3 + (2 - ch))))
      = (fun i j ch => c.data ((i * c.width + j) * 3 + (2 - ch))) := by
    funext i j ch
    rw [to8bit, if_neg (not_lt.mpr hexp)]
  rw [hfn]

/-- Fixture: a 1×1 BGR8 component with raw channel samples B=10, G=20, R=30. -/
def bgr8 : Component :=
  ⟨1, 1, 3, ⟨.bgr, some 8, false⟩, fun n => [10, 20, 30].getD n 0⟩

/-- Witness for C9 at the concrete BGR8 component: the decoded pixel reads
R=30 at channel 0, G=20 unchanged at channel 1, B=10 at channel 2. -/
theorem decode_bgr_channel_axis_reversed_witness :
    decode_pix bgr8 0 0 0 = some 30
    ∧ decode_pix bgr8 0 0 1 = some 20
    ∧ decode_pix bgr8 0 0 2 = some 10 := by
  have h := (decode_bgr_channel_axis_reversed bgr8 rfl rfl rfl).2 (by decide)
  refine ⟨?_, ?_, ?_⟩ <;> (unfold decode_pix; rw [h]; rfl)
